import Mathlib

set_option maxHeartbeats 1000000

/-! Shallow embedding of the `jsonrpcservice` package
(`src/jsonrpcservice/__init__.py`): JSON values, the exception model, the
lazily-validated `Request`, the two `Response` variants, and the `Service`
dispatcher.  Python's mutable attribute caching is modelled by explicit
state passing: every property of `Request` takes the request state and
returns its result together with the updated state.  Exceptions are
modelled by `Except`. -/

/-- A JSON value as produced by `json.loads`.  Numbers are modelled as
integers (numeric fidelity plays no role in any claim); objects are
association lists — a Python `dict` always has unique keys, and lookups
use the first match. -/
inductive Json where
  | null : Json
  | bool (b : Bool) : Json
  | num (n : Int) : Json
  | str (s : String) : Json
  | arr (elems : List Json) : Json
  | obj (members : List (String × Json)) : Json

/-- A Python exception as visible to the dispatcher: either a
`JsonRpcError` (`ParseError`, `InvalidRequest`, `MethodNotFound`,
`InvalidParams`, `InternalError`, `ApplicationError` — identified by its
`code`, `message` and `data`), or some other exception class
(`ValueError`, `TypeError`, or anything a handler raises). -/
inductive PyExc where
  | rpc (code : Int) (message : String) (data : Option Json) : PyExc
  | valueError (message : String) : PyExc
  | typeError (message : String) : PyExc
  | other (message : String) : PyExc

/-- The outcome of running `json.loads` on a raw request text.  JSON text
parsing is an external library, so a raw request is characterised by what
the codec does with it: parse to a value, or fail with a message. -/
inductive RawParse where
  | ok (value : Json) : RawParse
  | fail (message : String) : RawParse

/-- State of a `Request` object: `rawReq` models `_raw_request` (already
paired with its parse outcome, since the codec is external), `parsedReq`
models the `_parsed_request` cache and `dictMemo` the `_dict` cache. -/
structure Request where
  rawReq : Option RawParse
  parsedReq : Option Json
  dictMemo : Option (List (String × Json))

/-- First-match lookup in a JSON object, i.e. Python `dict` subscripting
(keys of a Python dict are unique, so first match is the match). -/
def lookupField : List (String × Json) → String → Option Json
  | [], _ => none
  | (k, v) :: rest, key => if k == key then some v else lookupField rest key

/-- `Request.parsed_request`: return the parsed request, parsing it from
the raw request if necessary; `json.loads` failures (`TypeError` /
`ValueError`) become `ParseError` (-32700) carrying `str(e)`.  The parsed
value is cached in `_parsed_request`; a failure is not cached. -/
def Request.parsed_request (s : Request) : Except PyExc Json × Request :=
  match s.parsedReq with
  | some j => (.ok j, s)
  | none =>
    match s.rawReq with
    | some (.ok j) => (.ok j, { s with parsedReq := some j })
    | some (.fail m) => (.error (.rpc (-32700) m none), s)
    | none =>
      (.error (.rpc (-32700)
        "the JSON object must be str, bytes or bytearray, not NoneType" none), s)

/-- `Request.dict`: the parsed request checked to be an object, cached in
`_dict`; a non-object body raises `InvalidRequest` (-32600). -/
def Request.dict (s : Request) : Except PyExc (List (String × Json)) × Request :=
  match s.dictMemo with
  | some d => (.ok d, s)
  | none =>
    match Request.parsed_request s with
    | (.ok data, s1) =>
      match data with
      | .obj kvs => (.ok kvs, { s1 with dictMemo := some kvs })
      | _ =>
        (.error (.rpc (-32600)
          "Expected an object as request body. Batch requests are not supported." none), s1)
    | (.error e, s1) => (.error e, s1)

/-- `Request.id`: `self.dict.get('id')` — absent maps to `None`
(JSON null). -/
def Request.id (s : Request) : Except PyExc Json × Request :=
  match Request.dict s with
  | (.ok d, s1) => (.ok ((lookupField d "id").getD Json.null), s1)
  | (.error e, s1) => (.error e, s1)

/-- `Request.version`: `self.dict['jsonrpc']`; a `KeyError` becomes
`InvalidRequest('Missing "jsonrpc" member in request.')`. -/
def Request.version (s : Request) : Except PyExc Json × Request :=
  match Request.dict s with
  | (.ok d, s1) =>
    match lookupField d "jsonrpc" with
    | some v => (.ok v, s1)
    | none => (.error (.rpc (-32600) "Missing \x22jsonrpc\x22 member in request." none), s1)
  | (.error e, s1) => (.error e, s1)

/-- `Request.method`: `self.dict['method']`, which must be a string. -/
def Request.method (s : Request) : Except PyExc String × Request :=
  match Request.dict s with
  | (.ok d, s1) =>
    match lookupField d "method" with
    | some (.str m) => (.ok m, s1)
    | some _ => (.error (.rpc (-32600) "\x22method\x22 of request must be a string." none), s1)
    | none => (.error (.rpc (-32600) "Missing \x22method\x22 member in request." none), s1)
  | (.error e, s1) => (.error e, s1)

/-- `Request.params`: `None` (modelled as JSON null) when absent, the
value when it is a list or a dict, `InvalidRequest` otherwise. -/
def Request.params (s : Request) : Except PyExc Json × Request :=
  match Request.dict s with
  | (.ok d, s1) =>
    match lookupField d "params" with
    | none => (.ok Json.null, s1)
    | some v =>
      match v with
      | .arr xs => (.ok (.arr xs), s1)
      | .obj kvs => (.ok (.obj kvs), s1)
      | _ =>
        (.error (.rpc (-32600)
          "\x22params\x22 of request must be either object or array if present." none), s1)
  | (.error e, s1) => (.error e, s1)

/-- `Request.args`: `self.params` when it is a list, else `[]`.  The
Python property reads `self.params` twice when it is a list (once for the
`isinstance` test, once for the return); both reads are modelled. -/
def Request.args (s : Request) : Except PyExc (List Json) × Request :=
  match Request.params s with
  | (.ok (Json.arr _), s1) =>
    match Request.params s1 with
    | (.ok (Json.arr xs), s2) => (.ok xs, s2)
    | (.ok _, s2) => (.ok [], s2)
    | (.error e, s2) => (.error e, s2)
  | (.ok _, s1) => (.ok [], s1)
  | (.error e, s1) => (.error e, s1)

/-- `Request.kwargs`: `self.params` when it is a dict, else `{}`; the
double read mirrors the Python property, as in `Request.args`. -/
def Request.kwargs (s : Request) : Except PyExc (List (String × Json)) × Request :=
  match Request.params s with
  | (.ok (Json.obj _), s1) =>
    match Request.params s1 with
    | (.ok (Json.obj kvs), s2) => (.ok kvs, s2)
    | (.ok _, s2) => (.ok [], s2)
    | (.error e, s2) => (.error e, s2)
  | (.ok _, s1) => (.ok [], s1)
  | (.error e, s1) => (.error e, s1)

/-- Python truth of `v == "2.0"` for a JSON value `v`. -/
def isStr20 : Json → Bool
  | .str sv => sv == "2.0"
  | _ => false

/-- Python truth of `v is None` for a JSON value `v`. -/
def isNullJson : Json → Bool
  | .null => true
  | _ => false

/-- Whether an exception is caught by `except (InvalidRequest, ParseError)`:
the request accessors raise exactly those two classes, identified by their
codes -32600 and -32700. -/
def caughtByNotificationGuard : PyExc → Bool
  | .rpc c _ _ => c == -32600 || c == -32700
  | _ => false

/-- `Request.is_notification`: `self.version == "2.0" and self.id is None`,
with `InvalidRequest` and `ParseError` caught and turned into `False`.
`and` short-circuits: `id` is only read when the version comparison
succeeds. -/
def Request.is_notification (s : Request) : Except PyExc Bool × Request :=
  match Request.version s with
  | (.ok v, s1) =>
    if isStr20 v then
      match Request.id s1 with
      | (.ok i, s2) => (.ok (isNullJson i), s2)
      | (.error e, s2) =>
        if caughtByNotificationGuard e then (.ok false, s2) else (.error e, s2)
    else (.ok false, s1)
  | (.error e, s1) =>
    if caughtByNotificationGuard e then (.ok false, s1) else (.error e, s1)

/-- One character of `json.dumps` output: quote and backslash are
escaped, other characters pass through. -/
def escapeJsonChar (c : Char) : String :=
  if c = '\x22' then "\\\x22"
  else if c = '\\' then "\\\\"
  else String.singleton c

/-- String escaping of `json.dumps`. -/
def escapeJsonString (s : String) : String :=
  s.foldl (fun acc c => acc ++ escapeJsonChar c) ""

mutual

/-- `json.dumps` with default separators (`", "` and `": "`). -/
def dumps : Json → String
  | Json.null => "null"
  | Json.bool true => "true"
  | Json.bool false => "false"
  | Json.num n => toString n
  | Json.str s => "\x22" ++ escapeJsonString s ++ "\x22"
  | Json.arr elems => "[" ++ dumpsElems elems ++ "]"
  | Json.obj members => "\x7b" ++ dumpsMembers members ++ "\x7d"

/-- Comma-joined array elements of `json.dumps`. -/
def dumpsElems : List Json → String
  | [] => ""
  | [j] => dumps j
  | j :: rest => dumps j ++ ", " ++ dumpsElems rest

/-- Comma-joined object members of `json.dumps`. -/
def dumpsMembers : List (String × Json) → String
  | [] => ""
  | [(k, v)] => "\x22" ++ escapeJsonString k ++ "\x22: " ++ dumps v
  | (k, v) :: rest =>
    "\x22" ++ escapeJsonString k ++ "\x22: " ++ dumps v ++ ", " ++ dumpsMembers rest

end

/-- A JSON-RPC response: `SuccessResponse` holds the method's result,
`ErrorResponse` holds code, message and optional data.  Each holds the
request it answers (the Python objects keep a reference to the mutable
`Request`; here the response carries the request state). -/
inductive Response where
  | success (request : Request) (result : Json) : Response
  | error (request : Request) (code : Int) (message : String) (data : Option Json) : Response

/-- The request a response refers to. -/
def Response.request : Response → Request
  | .success req _ => req
  | .error req _ _ _ => req

/-- Replace the request state carried by a response (models the shared
mutable `Request` object having been advanced). -/
def Response.withRequest : Response → Request → Response
  | .success _ result, req => .success req result
  | .error _ c m d, req => .error req c m d

/-- `SuccessResponse.dict` and `ErrorResponse.dict`.  The success variant
reads `self.request.id` and propagates its failure; the error variant
builds `{message, code[, data]}` and then reads the id under
`try/except`, substituting `None` on any failure. -/
def Response.dict : Response → Except PyExc Json × Request
  | .success req result =>
    match Request.id req with
    | (.ok v, s1) =>
      (.ok (Json.obj [("jsonrpc", Json.str "2.0"), ("id", v), ("result", result)]), s1)
    | (.error e, s1) => (.error e, s1)
  | .error req code message data =>
    let errMembers :=
      match data with
      | some d => [("message", Json.str message), ("code", Json.num code), ("data", d)]
      | none => [("message", Json.str message), ("code", Json.num code)]
    match Request.id req with
    | (.ok v, s1) =>
      (.ok (Json.obj [("jsonrpc", Json.str "2.0"), ("id", v), ("error", Json.obj errMembers)]), s1)
    | (.error _, s1) =>
      (.ok (Json.obj [("jsonrpc", Json.str "2.0"), ("id", Json.null), ("error", Json.obj errMembers)]), s1)

/-- `Response.body`: the empty string for a notification, otherwise
`json.dumps(self.dict)`.  `is_notification` is evaluated first, then
`dict`, on the request state it left behind. -/
def Response.body (r : Response) : Except PyExc String :=
  match Request.is_notification r.request with
  | (.ok true, _) => .ok ""
  | (.ok false, s1) =>
    match Response.dict (r.withRequest s1) with
    | (.ok d, _) => .ok (dumps d)
    | (.error e, _) => .error e
  | (.error e, _) => .error e

/-- A registered handler: its declared signature (a list of
positional-or-keyword parameters, each possibly having a default) and its
behaviour when invoked with positional and keyword arguments.  The
behaviour may raise any exception. -/
structure Param where
  name : String
  hasDefault : Bool

/-- A callable with an inspectable signature. -/
structure Callable where
  params : List Param
  run : List Json → List (String × Json) → Except PyExc Json

/-- Phase 1 of `inspect.Signature.bind`: pair positional arguments with
parameters in order; returns the remaining parameters and the names bound
positionally, or the `TypeError` message. -/
def bindPositional : List Param → List Json → Except String (List Param × List String)
  | ps, [] => .ok (ps, [])
  | [], _ :: _ => .error "too many positional arguments"
  | p :: ps, _ :: rest =>
    match bindPositional ps rest with
    | .ok (rem, names) => .ok (rem, p.name :: names)
    | .error m => .error m

/-- Phase 2 of `inspect.Signature.bind`: each remaining parameter is
satisfied from the keyword arguments or by its default; a parameter with
neither raises the missing-required `TypeError`. -/
def bindRemaining : List Param → List (String × Json) → Except String Unit
  | [], _ => .ok ()
  | p :: ps, kwargs =>
    if (lookupField kwargs p.name).isSome || p.hasDefault then bindRemaining ps kwargs
    else .error ("missing a required argument: \x27" ++ p.name ++ "\x27")

/-- `inspect.signature(method).bind(*args, **kwargs)` on a signature of
positional-or-keyword parameters (modelled from the external `inspect`
contract: arity/name check only, with CPython's messages): phase 3
rejects leftover keyword arguments, distinguishing a keyword that
duplicates a positionally-bound parameter from an unknown one. -/
def bindSig (ps : List Param) (args : List Json) (kwargs : List (String × Json)) :
    Except String Unit :=
  match bindPositional ps args with
  | .error m => .error m
  | .ok (rem, posNames) =>
    match bindRemaining rem kwargs with
    | .error m => .error m
    | .ok _ =>
      let remNames := rem.map Param.name
      match kwargs.filter (fun kv => !remNames.contains kv.1) with
      | [] => .ok ()
      | (k, _) :: _ =>
        if posNames.contains k then
          .error ("multiple values for argument \x27" ++ k ++ "\x27")
        else
          .error ("got an unexpected keyword argument \x27" ++ k ++ "\x27")

/-- The `Service`: its `_methods` registry, a name-to-callable mapping
(a Python dict: unique keys, insertion order). -/
structure Service where
  methods : List (String × Callable)

/-- Lookup in a registry association list. -/
def lookupIn : List (String × Callable) → String → Option Callable
  | [], _ => none
  | kv :: rest, n => if kv.1 == n then some kv.2 else lookupIn rest n

/-- Registry lookup (`method_name in self._methods` /
`self._methods[method_name]`). -/
def lookupMethod (svc : Service) (name : String) : Option Callable :=
  lookupIn svc.methods name

/-- `Service.add_method`: a duplicate name raises
`ValueError('Method "<name>" already registered.')`, otherwise the
mapping is extended by the one new entry. -/
def Service.add_method (svc : Service) (method_name : String) (func : Callable) :
    Except PyExc Service :=
  if (lookupMethod svc method_name).isSome then
    .error (.valueError ("Method \x22" ++ method_name ++ "\x22 already registered."))
  else
    .ok ⟨svc.methods ++ [(method_name, func)]⟩

/-- `Service.call_method`: unknown name raises `MethodNotFound` (-32601)
with message `Method "<name>" is not defined.`; a signature-binding
`TypeError` becomes `InvalidParams` (-32602) with `str(e)` and the
callable is not invoked; otherwise the callable runs. -/
def Service.call_method (svc : Service) (method_name : String) (args : List Json)
    (kwargs : List (String × Json)) : Except PyExc Json :=
  match lookupMethod svc method_name with
  | none =>
    .error (.rpc (-32601) ("Method \x22" ++ method_name ++ "\x22 is not defined.") none)
  | some m =>
    match bindSig m.params args kwargs with
    | .error msg => .error (.rpc (-32602) msg none)
    | .ok _ => m.run args kwargs

/-- The body of the `try` block of `Service.handle_request`: version
check, then `request.method`, `request.args`, `request.kwargs` (Python
evaluates the call's arguments left to right), then `call_method`.  The
result is the raised exception or the value, with the request state. -/
def Service.handle_request_attempt (svc : Service) (s : Request) :
    Except PyExc Json × Request :=
  match Request.version s with
  | (.error e, s1) => (.error e, s1)
  | (.ok v, s1) =>
    if isStr20 v then
      match Request.method s1 with
      | (.error e, s2) => (.error e, s2)
      | (.ok name, s2) =>
        match Request.args s2 with
        | (.error e, s3) => (.error e, s3)
        | (.ok as, s3) =>
          match Request.kwargs s3 with
          | (.error e, s4) => (.error e, s4)
          | (.ok ks, s4) => (Service.call_method svc name as ks, s4)
    else
      (.error (.rpc (-32600) "Only JSON-RPC version \x222.0\x22 is supported." none), s1)

/-- `Service.handle_request`: the `try` block wrapped in
`except JsonRpcError` (code, message and data verbatim) and a bare
`except` (-32603, "Internal error.", no data). -/
def Service.handle_request (svc : Service) (s : Request) : Response :=
  match Service.handle_request_attempt svc s with
  | (.ok result, s1) => .success s1 result
  | (.error (.rpc c m d), s1) => .error s1 c m d
  | (.error _, s1) => .error s1 (-32603) "Internal error." none

/-- `ApplicationError.__init__`: codes in the reserved band
`-32000 >= code >= -32768` raise `ValueError`; otherwise the error
carries the given code, message and data. -/
structure JsonRpcErrorData where
  code : Int
  message : String
  data : Option Json

/-- Constructing an `ApplicationError`. -/
def ApplicationError.make (code : Int) (message : String) (data : Option Json) :
    Except PyExc JsonRpcErrorData :=
  if -32000 ≥ code ∧ code ≥ -32768 then
    .error (.valueError
      "Error codes between -32000 and -32768 are reserved by JSON-RPC 2.0 specification.")
  else
    .ok ⟨code, message, data⟩

/-- Replace the behaviour (but not the signature) of the callable
registered under `name`; used to state that a callable whose arguments do
not bind is never invoked. -/
def replaceRun (ms : List (String × Callable)) (name : String)
    (run2 : List Json → List (String × Json) → Except PyExc Json) :
    List (String × Callable) :=
  ms.map fun kv => if kv.1 == name then (kv.1, ⟨kv.2.params, run2⟩) else kv

/-- Pure result of `Request.id` as a function of the `dict` outcome. -/
def idFun (r : Except PyExc (List (String × Json))) : Except PyExc Json :=
  match r with
  | .ok d => .ok ((lookupField d "id").getD Json.null)
  | .error e => .error e

/-- Pure result of `Request.version` as a function of the `dict` outcome. -/
def versionFun (r : Except PyExc (List (String × Json))) : Except PyExc Json :=
  match r with
  | .ok d =>
    match lookupField d "jsonrpc" with
    | some v => .ok v
    | none => .error (.rpc (-32600) "Missing \x22jsonrpc\x22 member in request." none)
  | .error e => .error e

/-- Pure result of `Request.method` as a function of the `dict` outcome. -/
def methodFun (r : Except PyExc (List (String × Json))) : Except PyExc String :=
  match r with
  | .ok d =>
    match lookupField d "method" with
    | some (.str m) => .ok m
    | some _ => .error (.rpc (-32600) "\x22method\x22 of request must be a string." none)
    | none => .error (.rpc (-32600) "Missing \x22method\x22 member in request." none)
  | .error e => .error e

/-- Pure result of `Request.params` as a function of the `dict` outcome. -/
def paramsFun (r : Except PyExc (List (String × Json))) : Except PyExc Json :=
  match r with
  | .ok d =>
    match lookupField d "params" with
    | none => .ok Json.null
    | some v =>
      match v with
      | .arr xs => .ok (.arr xs)
      | .obj kvs => .ok (.obj kvs)
      | _ =>
        .error (.rpc (-32600)
          "\x22params\x22 of request must be either object or array if present." none)
  | .error e => .error e

/-- Pure result of `Request.args` as a function of the `dict` outcome. -/
def argsFun (r : Except PyExc (List (String × Json))) : Except PyExc (List Json) :=
  match paramsFun r with
  | .ok (Json.arr xs) => .ok xs
  | .ok _ => .ok []
  | .error e => .error e

/-- Pure result of `Request.kwargs` as a function of the `dict` outcome. -/
def kwargsFun (r : Except PyExc (List (String × Json))) :
    Except PyExc (List (String × Json)) :=
  match paramsFun r with
  | .ok (Json.obj kvs) => .ok kvs
  | .ok _ => .ok []
  | .error e => .error e

/-- Pure result of `Request.is_notification` as a function of the `dict`
outcome. -/
def notifFun (r : Except PyExc (List (String × Json))) : Except PyExc Bool :=
  match versionFun r with
  | .ok v =>
    if isStr20 v then
      match idFun r with
      | .ok i => .ok (isNullJson i)
      | .error e => if caughtByNotificationGuard e then .ok false else .error e
    else .ok false
  | .error e => if caughtByNotificationGuard e then .ok false else .error e

/-- Pure result of the `try` block of `Service.handle_request` as a
function of the `dict` outcome. -/
def attemptFun (svc : Service) (r : Except PyExc (List (String × Json))) :
    Except PyExc Json :=
  match versionFun r with
  | .error e => .error e
  | .ok v =>
    if isStr20 v then
      match methodFun r with
      | .error e => .error e
      | .ok name =>
        match argsFun r with
        | .error e => .error e
        | .ok as =>
          match kwargsFun r with
          | .error e => .error e
          | .ok ks => Service.call_method svc name as ks
    else
      .error (.rpc (-32600) "Only JSON-RPC version \x222.0\x22 is supported." none)

/-- The `_dict` lookup is idempotent: re-reading `Request.dict` after a
first read returns the same outcome and leaves the state unchanged. -/
theorem Request.dict_idem (s : Request) :
    Request.dict (Request.dict s).2 = ((Request.dict s).1, (Request.dict s).2) := by
  rcases s with ⟨raw, parsed, memo⟩
  cases memo with
  | some d => rfl
  | none =>
    cases parsed with
    | some j => cases j <;> rfl
    | none =>
      cases raw with
      | none => rfl
      | some rp =>
        cases rp with
        | ok j => cases j <;> rfl
        | fail m => rfl

/-- Any failure of `Request.dict` is a `ParseError` or an
`InvalidRequest`, hence caught by the guard in `is_notification`. -/
theorem Request.dict_error_caught (s : Request) (e : PyExc)
    (h : (Request.dict s).1 = .error e) : caughtByNotificationGuard e = true := by
  rcases s with ⟨raw, parsed, memo⟩
  cases memo with
  | some d => simp [Request.dict] at h
  | none =>
    cases parsed with
    | some j =>
      cases j <;> simp [Request.dict, Request.parsed_request] at h <;>
        simp [← h, caughtByNotificationGuard]
    | none =>
      cases raw with
      | none =>
        simp [Request.dict, Request.parsed_request] at h
        simp [← h, caughtByNotificationGuard]
      | some rp =>
        cases rp with
        | ok j =>
          cases j <;> simp [Request.dict, Request.parsed_request] at h <;>
            simp [← h, caughtByNotificationGuard]
        | fail m =>
          simp [Request.dict, Request.parsed_request] at h
          simp [← h, caughtByNotificationGuard]

/-- `Request.id` in terms of the `dict` outcome. -/
theorem Request.id_spec (s : Request) :
    Request.id s = (idFun (Request.dict s).1, (Request.dict s).2) := by
  unfold Request.id idFun
  rcases h : Request.dict s with ⟨r, s1⟩
  cases r <;> simp

/-- `Request.version` in terms of the `dict` outcome. -/
theorem Request.version_spec (s : Request) :
    Request.version s = (versionFun (Request.dict s).1, (Request.dict s).2) := by
  unfold Request.version versionFun
  rcases h : Request.dict s with ⟨r, s1⟩
  cases r with
  | error e => simp
  | ok d => rcases hl : lookupField d "jsonrpc" with _ | v <;> simp [hl]

/-- `Request.method` in terms of the `dict` outcome. -/
theorem Request.method_spec (s : Request) :
    Request.method s = (methodFun (Request.dict s).1, (Request.dict s).2) := by
  unfold Request.method methodFun
  rcases h : Request.dict s with ⟨r, s1⟩
  cases r with
  | error e => simp
  | ok d =>
    rcases hl : lookupField d "method" with _ | v
    · simp [hl]
    · cases v <;> simp [hl]

/-- `Request.params` in terms of the `dict` outcome. -/
theorem Request.params_spec (s : Request) :
    Request.params s = (paramsFun (Request.dict s).1, (Request.dict s).2) := by
  unfold Request.params paramsFun
  rcases h : Request.dict s with ⟨r, s1⟩
  cases r with
  | error e => simp
  | ok d =>
    rcases hl : lookupField d "params" with _ | v
    · simp [hl]
    · cases v <;> simp [hl]

/-- `Request.args` in terms of the `dict` outcome (the second read of
`params` is absorbed by memoization). -/
theorem Request.args_spec (s : Request) :
    Request.args s = (argsFun (Request.dict s).1, (Request.dict s).2) := by
  have hp := Request.params_spec s
  have hp2 := Request.params_spec (Request.dict s).2
  rw [Request.dict_idem s] at hp2
  unfold Request.args argsFun
  rw [hp]
  cases hv : paramsFun (Request.dict s).1 with
  | error e => simp [hv]
  | ok v => cases v <;> simp [hv, hp2]

/-- `Request.kwargs` in terms of the `dict` outcome. -/
theorem Request.kwargs_spec (s : Request) :
    Request.kwargs s = (kwargsFun (Request.dict s).1, (Request.dict s).2) := by
  have hp := Request.params_spec s
  have hp2 := Request.params_spec (Request.dict s).2
  rw [Request.dict_idem s] at hp2
  unfold Request.kwargs kwargsFun
  rw [hp]
  cases hv : paramsFun (Request.dict s).1 with
  | error e => simp [hv]
  | ok v => cases v <;> simp [hv, hp2]

/-- `Request.is_notification` in terms of the `dict` outcome. -/
theorem Request.is_notification_spec (s : Request) :
    Request.is_notification s = (notifFun (Request.dict s).1, (Request.dict s).2) := by
  have hid := Request.id_spec (Request.dict s).2
  rw [Request.dict_idem s] at hid
  dsimp only at hid
  unfold Request.is_notification notifFun
  rw [Request.version_spec s]
  cases hv : versionFun (Request.dict s).1 with
  | error e => cases hcg : caughtByNotificationGuard e <;> simp [hv, hcg]
  | ok v =>
    cases hb : isStr20 v with
    | false => simp [hb]
    | true =>
      simp only [hb, if_true]
      rw [hid]
      cases hi : idFun (Request.dict s).1 with
      | ok i => simp [hi]
      | error e2 => cases hcg : caughtByNotificationGuard e2 <;> simp [hi, hcg]

/-- The `try` block of `handle_request` in terms of the `dict` outcome. -/
theorem Service.handle_request_attempt_spec (svc : Service) (s : Request) :
    Service.handle_request_attempt svc s =
      (attemptFun svc (Request.dict s).1, (Request.dict s).2) := by
  have hm := Request.method_spec (Request.dict s).2
  rw [Request.dict_idem s] at hm
  dsimp only at hm
  have ha := Request.args_spec (Request.dict s).2
  rw [Request.dict_idem s] at ha
  dsimp only at ha
  have hk := Request.kwargs_spec (Request.dict s).2
  rw [Request.dict_idem s] at hk
  dsimp only at hk
  unfold Service.handle_request_attempt attemptFun
  rw [Request.version_spec s]
  cases hv : versionFun (Request.dict s).1 with
  | error e => simp [hv]
  | ok v =>
    cases hb : isStr20 v with
    | false => simp [hb]
    | true =>
      simp only [hb, if_true]
      rw [hm]
      cases hmv : methodFun (Request.dict s).1 with
      | error e => simp
      | ok name =>
        dsimp only
        rw [ha]
        cases hav : argsFun (Request.dict s).1 with
        | error e => simp
        | ok as =>
          dsimp only
          rw [hk]
          cases hkv : kwargsFun (Request.dict s).1 with
          | error e => simp
          | ok ks => simp

/-- `Service.handle_request` in terms of the `dict` outcome: the request
state carried by the returned response is always the one left behind by
the first `dict` evaluation. -/
theorem Service.handle_request_spec (svc : Service) (s : Request) :
    Service.handle_request svc s =
      (match attemptFun svc (Request.dict s).1 with
       | .ok r => Response.success (Request.dict s).2 r
       | .error (.rpc c m d) => Response.error (Request.dict s).2 c m d
       | .error _ => Response.error (Request.dict s).2 (-32603) "Internal error." none) := by
  unfold Service.handle_request
  rw [Service.handle_request_attempt_spec]
  cases h : attemptFun svc (Request.dict s).1 with
  | ok r => simp
  | error e => cases e <;> simp

/-- `isStr20` holds exactly on the JSON string "2.0". -/
theorem isStr20_iff (v : Json) : isStr20 v = true ↔ v = Json.str "2.0" := by
  cases v <;> simp [isStr20]

/-- `isNullJson` holds exactly on JSON null. -/
theorem isNullJson_iff (i : Json) : isNullJson i = true ↔ i = Json.null := by
  cases i <;> simp [isNullJson]

/-- Appending a fresh entry makes it visible under its own name. -/
theorem lookupIn_append_self (ms : List (String × Callable)) (name : String) (f : Callable)
    (h : lookupIn ms name = none) : lookupIn (ms ++ [(name, f)]) name = some f := by
  induction ms with
  | nil => simp [lookupIn]
  | cons kv rest ih =>
    cases hk : (kv.1 == name) with
    | true => simp [lookupIn, hk] at h
    | false =>
      simp only [lookupIn, hk, List.cons_append, Bool.false_eq_true, if_false] at h ⊢
      exact ih h

/-- Appending an entry does not change lookups under other names. -/
theorem lookupIn_append_other (ms : List (String × Callable)) (name : String) (f : Callable)
    (n : String) (h : n ≠ name) : lookupIn (ms ++ [(name, f)]) n = lookupIn ms n := by
  induction ms with
  | nil =>
    cases hb : (name == n) with
    | true => exact absurd (eq_of_beq hb).symm h
    | false => simp [lookupIn, hb]
  | cons kv rest ih =>
    show lookupIn (kv :: (rest ++ [(name, f)])) n = lookupIn (kv :: rest) n
    cases hk : (kv.1 == n) <;> simp [lookupIn, hk, ih]

/-- Replacing the behaviour of the callable under `name` keeps its
signature at lookup. -/
theorem lookupIn_replaceRun (ms : List (String × Callable)) (name : String) (f : Callable)
    (run2 : List Json → List (String × Json) → Except PyExc Json)
    (h : lookupIn ms name = some f) :
    lookupIn (replaceRun ms name run2) name = some ⟨f.params, run2⟩ := by
  induction ms with
  | nil => simp [lookupIn] at h
  | cons kv rest ih =>
    cases hk : (kv.1 == name) with
    | true =>
      simp only [lookupIn, hk, if_true, Option.some.injEq] at h
      simp only [replaceRun, List.map_cons, hk, if_true, lookupIn]
      rw [h]
    | false =>
      simp only [lookupIn, hk, Bool.false_eq_true, if_false] at h
      simp only [replaceRun, List.map_cons, hk, Bool.false_eq_true, if_false, lookupIn]
      exact ih h

/-- An `ErrorResponse` reaches a serialized dict without raising; its
final request state is the one left by reading the id. -/
theorem errorResponse_dict_pair (req : Request) (c : Int) (m : String) (d : Option Json) :
    ∃ j, Response.dict (Response.error req c m d) = (.ok j, (Request.id req).2) := by
  rcases hr : Request.id req with ⟨r, s1⟩
  cases r <;> cases d <;>
    exact ⟨_, by dsimp only [Response.dict]; rw [hr]⟩

/-- A successful `try` block presupposes a readable request object. -/
theorem attemptFun_ok_dict (svc : Service) (r : Except PyExc (List (String × Json)))
    (x : Json) (h : attemptFun svc r = .ok x) : ∃ dd, r = .ok dd := by
  cases r with
  | ok dd => exact ⟨dd, rfl⟩
  | error e => simp [attemptFun, versionFun] at h

/-- C7: constructing an `ApplicationError` with a code in the inclusive
reserved band [-32768, -32000] raises `ValueError`; any code outside it
constructs an error carrying exactly that code, message and data. -/
theorem application_error_reserved_band (c : Int) (m : String) (d : Option Json) :
    ((-32768 ≤ c ∧ c ≤ -32000) →
      ApplicationError.make c m d = .error (.valueError
        "Error codes between -32000 and -32768 are reserved by JSON-RPC 2.0 specification.")) ∧
    (¬(-32768 ≤ c ∧ c ≤ -32000) → ApplicationError.make c m d = .ok ⟨c, m, d⟩) := by
  unfold ApplicationError.make
  constructor
  · intro h
    rw [if_pos ⟨h.2, h.1⟩]
  · intro h
    rw [if_neg (fun hc => h ⟨hc.2, hc.1⟩)]

/-- Witness for C7 at the band edge -32000 (rejected) and just outside it
at -31999 (accepted verbatim). -/
theorem application_error_reserved_band_witness :
    ApplicationError.make (-32000) "boundary" none = .error (.valueError
      "Error codes between -32000 and -32768 are reserved by JSON-RPC 2.0 specification.") ∧
    ApplicationError.make (-31999) "app" none = .ok ⟨-31999, "app", none⟩ :=
  ⟨(application_error_reserved_band (-32000) "boundary" none).1 (by constructor <;> decide),
   (application_error_reserved_band (-31999) "app" none).2 (by intro h; exact absurd h.2 (by decide))⟩

/-- C5: `add_method` on a name already registered fails with the
`ValueError` and (the registry being returned only on success) leaves the
mapping as it was; on a fresh name it extends the mapping by exactly that
one entry, leaving every other name's lookup unchanged. -/
theorem add_method_duplicate_protection (svc : Service) (name : String) (f : Callable) :
    (∀ g, lookupMethod svc name = some g →
      Service.add_method svc name f =
        .error (.valueError ("Method \x22" ++ name ++ "\x22 already registered.")) ∧
      lookupMethod svc name = some g) ∧
    (lookupMethod svc name = none →
      ∃ svc2, Service.add_method svc name f = .ok svc2 ∧
        lookupMethod svc2 name = some f ∧
        ∀ n, n ≠ name → lookupMethod svc2 n = lookupMethod svc n) := by
  constructor
  · intro g hg
    refine ⟨?_, hg⟩
    unfold Service.add_method
    rw [if_pos (by rw [hg]; rfl)]
  · intro h
    refine ⟨⟨svc.methods ++ [(name, f)]⟩, ?_, ?_, ?_⟩
    · unfold Service.add_method
      rw [if_neg (by rw [lookupMethod] at h; rw [lookupMethod, h]; simp)]
    · exact lookupIn_append_self svc.methods name f h
    · intro n hn
      exact lookupIn_append_other svc.methods name f n hn

/-- C4: computing an `ErrorResponse`'s dict never raises, whatever the
underlying request: the result is `{jsonrpc: "2.0", id, error}` where the
error member carries the message and code, carries a `data` key exactly
when the response's data is not `None`, and `id` is the request's id when
readable and null otherwise. -/
theorem error_response_dict_total_graceful (req : Request) (c : Int) (m : String)
    (d : Option Json) :
    ∃ rid em,
      (Response.dict (Response.error req c m d)).1 =
        .ok (Json.obj [("jsonrpc", Json.str "2.0"), ("id", rid), ("error", Json.obj em)]) ∧
      lookupField em "message" = some (Json.str m) ∧
      lookupField em "code" = some (Json.num c) ∧
      lookupField em "data" = d ∧
      rid = (match (Request.id req).1 with | .ok v => v | .error _ => Json.null) := by
  rcases hr : Request.id req with ⟨r, s1⟩
  cases r with
  | ok v =>
    cases d with
    | none =>
      refine ⟨v, [("message", Json.str m), ("code", Json.num c)], ?_, ?_, ?_, ?_, ?_⟩ <;>
        simp [Response.dict, hr, lookupField]
    | some dd =>
      refine ⟨v, [("message", Json.str m), ("code", Json.num c), ("data", dd)],
        ?_, ?_, ?_, ?_, ?_⟩ <;> simp [Response.dict, hr, lookupField]
  | error e =>
    cases d with
    | none =>
      refine ⟨Json.null, [("message", Json.str m), ("code", Json.num c)],
        ?_, ?_, ?_, ?_, ?_⟩ <;> simp [Response.dict, hr, lookupField]
    | some dd =>
      refine ⟨Json.null, [("message", Json.str m), ("code", Json.num c), ("data", dd)],
        ?_, ?_, ?_, ?_, ?_⟩ <;> simp [Response.dict, hr, lookupField]

/-- C8: validation is memoized: re-reading any derived field (`id`,
`version`, `method`, `params`) after a first read returns the very same
outcome — value or raised failure — and leaves the request state
untouched. -/
theorem request_accessors_memoized_idempotent (s : Request) :
    Request.id (Request.id s).2 = Request.id s ∧
    Request.version (Request.version s).2 = Request.version s ∧
    Request.method (Request.method s).2 = Request.method s ∧
    Request.params (Request.params s).2 = Request.params s := by
  refine ⟨?_, ?_, ?_, ?_⟩
  · simp [Request.id_spec, Request.dict_idem]
  · simp [Request.version_spec, Request.dict_idem]
  · simp [Request.method_spec, Request.dict_idem]
  · simp [Request.params_spec, Request.dict_idem]

/-- The positional arguments induced by a validated params value: the
sequence itself when it is one, the empty list otherwise. -/
def argsOfParams : Json → List Json
  | .arr xs => xs
  | _ => []

/-- The keyword arguments induced by a validated params value: the
mapping itself when it is one, the empty mapping otherwise. -/
def kwargsOfParams : Json → List (String × Json)
  | .obj kvs => kvs
  | _ => []

/-- C10: when `params` validates, `args` is exactly the params sequence
(or empty) and `kwargs` exactly the params mapping (or empty), so at most
one of them is non-empty. -/
theorem args_kwargs_exclusive (s : Request) (v : Json)
    (h : (Request.params s).1 = .ok v) :
    (Request.args s).1 = .ok (argsOfParams v) ∧
    (Request.kwargs s).1 = .ok (kwargsOfParams v) ∧
    ((Request.args s).1 = .ok [] ∨ (Request.kwargs s).1 = .ok []) := by
  have hp := Request.params_spec s
  rw [hp] at h
  dsimp only at h
  have ha := Request.args_spec s
  have hk := Request.kwargs_spec s
  have h1 : (Request.args s).1 = .ok (argsOfParams v) := by
    rw [ha]
    dsimp only
    unfold argsFun
    rw [h]
    cases v <;> rfl
  have h2 : (Request.kwargs s).1 = .ok (kwargsOfParams v) := by
    rw [hk]
    dsimp only
    unfold kwargsFun
    rw [h]
    cases v <;> rfl
  refine ⟨h1, h2, ?_⟩
  cases v with
  | arr xs => right; simp [h2, kwargsOfParams]
  | obj kvs => left; simp [h1, argsOfParams]
  | null => left; simp [h1, argsOfParams]
  | bool b => left; simp [h1, argsOfParams]
  | num n => left; simp [h1, argsOfParams]
  | str sv => left; simp [h1, argsOfParams]

/-- Witness for C10 on a request with array params `[1]`: args are the
sequence, kwargs empty. -/
theorem args_kwargs_exclusive_witness :
    (Request.args ⟨none, some (Json.obj [("params", Json.arr [Json.num 1])]), none⟩).1 =
      .ok [Json.num 1] ∧
    (Request.kwargs ⟨none, some (Json.obj [("params", Json.arr [Json.num 1])]), none⟩).1 =
      .ok [] :=
  ⟨(args_kwargs_exclusive ⟨none, some (Json.obj [("params", Json.arr [Json.num 1])]), none⟩
      (Json.arr [Json.num 1]) rfl).1,
   (args_kwargs_exclusive ⟨none, some (Json.obj [("params", Json.arr [Json.num 1])]), none⟩
      (Json.arr [Json.num 1]) rfl).2.1⟩

/-- C6: `call_method` on an unregistered name fails with -32601 and the
message `Method "<name>" is not defined.`; on a registered callable whose
arguments do not bind against its signature it fails with -32602 carrying
the binding error's description, and the callable's behaviour is never
consulted (replacing it changes nothing).  At the dispatcher level, a
valid request naming an unregistered method yields that -32601 error
response. -/
theorem call_method_lookup_and_binding (svc : Service) (name : String)
    (args : List Json) (kwargs : List (String × Json)) :
    (lookupMethod svc name = none →
      Service.call_method svc name args kwargs =
        .error (.rpc (-32601) ("Method \x22" ++ name ++ "\x22 is not defined.") none)) ∧
    (∀ f msg, lookupMethod svc name = some f →
      bindSig f.params args kwargs = .error msg →
      Service.call_method svc name args kwargs = .error (.rpc (-32602) msg none) ∧
      (∀ run2, Service.call_method ⟨replaceRun svc.methods name run2⟩ name args kwargs =
        .error (.rpc (-32602) msg none))) ∧
    (∀ s : Request, (Request.version s).1 = .ok (Json.str "2.0") →
      (Request.method s).1 = .ok name →
      (Request.args s).1 = .ok args →
      (Request.kwargs s).1 = .ok kwargs →
      lookupMethod svc name = none →
      Service.handle_request svc s =
        .error (Request.dict s).2 (-32601)
          ("Method \x22" ++ name ++ "\x22 is not defined.") none) := by
  refine ⟨?_, ?_, ?_⟩
  · intro h
    unfold Service.call_method
    rw [h]
  · intro f msg hf hb
    constructor
    · unfold Service.call_method
      rw [hf]
      dsimp only
      rw [hb]
    · intro run2
      unfold Service.call_method
      have hl : lookupMethod ⟨replaceRun svc.methods name run2⟩ name = some ⟨f.params, run2⟩ :=
        lookupIn_replaceRun svc.methods name f run2 hf
      rw [hl]
      dsimp only
      rw [hb]
  · intro s hv hm ha hk hlook
    rw [Request.version_spec s] at hv
    dsimp only at hv
    rw [Request.method_spec s] at hm
    dsimp only at hm
    rw [Request.args_spec s] at ha
    dsimp only at ha
    rw [Request.kwargs_spec s] at hk
    dsimp only at hk
    have havt : attemptFun svc (Request.dict s).1 =
        .error (.rpc (-32601) ("Method \x22" ++ name ++ "\x22 is not defined.") none) := by
      unfold attemptFun
      rw [hv]
      simp only [isStr20, beq_self_eq_true, if_true, hm, ha, hk]
      unfold Service.call_method
      rw [hlook]
    rw [Service.handle_request_spec svc s, havt]

/-- Witness for C6: a registry holding only `add(a, b)`; calling
`missing` yields the -32601 message, calling `add` with no arguments
yields -32602 with the binder's description. -/
theorem call_method_lookup_and_binding_witness :
    Service.call_method
        ⟨[("add", ⟨[⟨"a", false⟩, ⟨"b", false⟩], fun _ _ => .ok (Json.num 0)⟩)]⟩
        "missing" [] [] =
      .error (.rpc (-32601) "Method \x22missing\x22 is not defined." none) ∧
    Service.call_method
        ⟨[("add", ⟨[⟨"a", false⟩, ⟨"b", false⟩], fun _ _ => .ok (Json.num 0)⟩)]⟩
        "add" [] [] =
      .error (.rpc (-32602) "missing a required argument: \x27a\x27" none) :=
  ⟨(call_method_lookup_and_binding
      ⟨[("add", ⟨[⟨"a", false⟩, ⟨"b", false⟩], fun _ _ => .ok (Json.num 0)⟩)]⟩
      "missing" [] []).1 rfl,
   ((call_method_lookup_and_binding
      ⟨[("add", ⟨[⟨"a", false⟩, ⟨"b", false⟩], fun _ _ => .ok (Json.num 0)⟩)]⟩
      "add" [] []).2.1 ⟨[⟨"a", false⟩, ⟨"b", false⟩], fun _ _ => .ok (Json.num 0)⟩
      "missing a required argument: \x27a\x27" rfl rfl).1⟩

/-- Counterexample to C9 as stated: a request whose body is the object
`{"id": 1}` (so the `jsonrpc` member is absent) is answered with code
-32600 but with the message `Missing "jsonrpc" member in request.`,
not the claimed `Only JSON-RPC version "2.0" is supported.`. -/
theorem missing_jsonrpc_message_counterexample :
    Service.handle_request ⟨[]⟩ ⟨none, some (Json.obj [("id", Json.num 1)]), none⟩ =
      Response.error ⟨none, some (Json.obj [("id", Json.num 1)]), some [("id", Json.num 1)]⟩
        (-32600) "Missing \x22jsonrpc\x22 member in request." none ∧
    "Missing \x22jsonrpc\x22 member in request." ≠
      "Only JSON-RPC version \x222.0\x22 is supported." := by
  constructor
  · rfl
  · decide

/-- C9 amended: a request whose body is an object without a `jsonrpc`
member is answered with -32600 and `Missing "jsonrpc" member in
request.`; one whose `jsonrpc` member is present but not the string
"2.0" is answered with -32600 and `Only JSON-RPC version "2.0" is
supported.` — in both cases for every registry, so no registered method
is invoked. -/
theorem handle_request_version_validation (s : Request) (d : List (String × Json))
    (h : (Request.dict s).1 = .ok d) :
    (lookupField d "jsonrpc" = none →
      ∀ svc : Service, Service.handle_request svc s =
        .error (Request.dict s).2 (-32600)
          "Missing \x22jsonrpc\x22 member in request." none) ∧
    (∀ v, lookupField d "jsonrpc" = some v → isStr20 v = false →
      ∀ svc : Service, Service.handle_request svc s =
        .error (Request.dict s).2 (-32600)
          "Only JSON-RPC version \x222.0\x22 is supported." none) := by
  constructor
  · intro hl svc
    have havt : attemptFun svc (Request.dict s).1 =
        .error (.rpc (-32600) "Missing \x22jsonrpc\x22 member in request." none) := by
      unfold attemptFun versionFun
      rw [h]
      simp [hl]
    rw [Service.handle_request_spec svc s, havt]
  · intro v hl hv svc
    have havt : attemptFun svc (Request.dict s).1 =
        .error (.rpc (-32600) "Only JSON-RPC version \x222.0\x22 is supported." none) := by
      unfold attemptFun versionFun
      rw [h]
      simp [hl, hv]
    rw [Service.handle_request_spec svc s, havt]

/-- Witness for the amended C9 on the request `{"jsonrpc": "1.0"}`. -/
theorem handle_request_version_validation_witness :
    Service.handle_request ⟨[]⟩ ⟨none, some (Json.obj [("jsonrpc", Json.str "1.0")]), none⟩ =
      Response.error
        ⟨none, some (Json.obj [("jsonrpc", Json.str "1.0")]),
          some [("jsonrpc", Json.str "1.0")]⟩
        (-32600) "Only JSON-RPC version \x222.0\x22 is supported." none :=
  (handle_request_version_validation
      ⟨none, some (Json.obj [("jsonrpc", Json.str "1.0")]), none⟩
      [("jsonrpc", Json.str "1.0")] rfl).2 (Json.str "1.0") rfl rfl ⟨[]⟩

/-- C3: `is_notification` never raises, and is true exactly when the
request validates with protocol version the string "2.0" and id absent or
null; every validation failure while determining the status resolves to
false. -/
theorem is_notification_never_raises_characterisation (s : Request) :
    ∃ b, (Request.is_notification s).1 = .ok b ∧
      (b = true ↔ (Request.version s).1 = .ok (Json.str "2.0") ∧
        (Request.id (Request.version s).2).1 = .ok Json.null) := by
  have hid := Request.id_spec (Request.dict s).2
  rw [Request.dict_idem s] at hid
  dsimp only at hid
  rw [Request.is_notification_spec s, Request.version_spec s]
  dsimp only
  rw [hid]
  dsimp only
  cases hd : (Request.dict s).1 with
  | error e =>
    have hc := Request.dict_error_caught s e hd
    refine ⟨false, ?_, ?_⟩
    · simp [notifFun, versionFun, hc]
    · simp [versionFun]
  | ok dd =>
    rcases hl : lookupField dd "jsonrpc" with _ | v
    · refine ⟨false, ?_, ?_⟩
      · simp [notifFun, versionFun, hl, caughtByNotificationGuard]
      · simp [versionFun, hl]
    · cases hb : isStr20 v with
      | false =>
        refine ⟨false, ?_, ?_⟩
        · simp [notifFun, versionFun, hl, hb]
        · simp only [versionFun, hl]
          constructor
          · intro hcon
            exact absurd hcon (by simp)
          · rintro ⟨hveq, -⟩
            rw [Except.ok.injEq] at hveq
            rw [hveq] at hb
            simp [isStr20] at hb
      | true =>
        have hv20 : v = Json.str "2.0" := (isStr20_iff v).mp hb
        subst hv20
        refine ⟨isNullJson ((lookupField dd "id").getD Json.null), ?_, ?_⟩
        · simp [notifFun, versionFun, hl, hb, idFun]
        · simp only [versionFun, hl, idFun, true_and, Except.ok.injEq]
          cases hg : (lookupField dd "id").getD Json.null <;> simp [isNullJson]

/-- C1: `handle_request` always produces a `Response` (its codomain) and
the single boundary `try/except` maps a raised `JsonRpcError` to an
`ErrorResponse` with its own code, message and data verbatim, and any
other exception — raised anywhere in validation, lookup, binding or
invocation — to an `ErrorResponse` with code -32603, message
"Internal error." and no data. -/
theorem handle_request_error_boundary (svc : Service) (s : Request) :
    (∀ r s1, Service.handle_request_attempt svc s = (.ok r, s1) →
      Service.handle_request svc s = .success s1 r) ∧
    (∀ c m d s1, Service.handle_request_attempt svc s = (.error (.rpc c m d), s1) →
      Service.handle_request svc s = .error s1 c m d) ∧
    (∀ e s1, Service.handle_request_attempt svc s = (.error e, s1) →
      (∀ c m d, e ≠ .rpc c m d) →
      Service.handle_request svc s = .error s1 (-32603) "Internal error." none) := by
  refine ⟨?_, ?_, ?_⟩
  · intro r s1 h
    unfold Service.handle_request
    rw [h]
  · intro c m d s1 h
    unfold Service.handle_request
    rw [h]
  · intro e s1 h hne
    unfold Service.handle_request
    rw [h]
    cases e with
    | rpc c m d => exact absurd rfl (hne c m d)
    | valueError m => rfl
    | typeError m => rfl
    | other m => rfl

/-- Witness for C1: a handler raising an arbitrary non-JSON-RPC exception
is flattened to -32603 "Internal error." with no data, and a handler
raising an `ApplicationError` keeps its code, message and data verbatim. -/
theorem handle_request_error_boundary_witness :
    Service.handle_request ⟨[("boom", ⟨[], fun _ _ => .error (.other "kaboom")⟩)]⟩
        ⟨none, some (Json.obj [("jsonrpc", Json.str "2.0"), ("id", Json.num 1),
          ("method", Json.str "boom")]), none⟩ =
      .error
        ⟨none, some (Json.obj [("jsonrpc", Json.str "2.0"), ("id", Json.num 1),
          ("method", Json.str "boom")]),
          some [("jsonrpc", Json.str "2.0"), ("id", Json.num 1),
            ("method", Json.str "boom")]⟩
        (-32603) "Internal error." none ∧
    Service.handle_request
        ⟨[("boom", ⟨[], fun _ _ =>
            .error (.rpc 42 "teapot" (some (Json.str "hot")))⟩)]⟩
        ⟨none, some (Json.obj [("jsonrpc", Json.str "2.0"), ("id", Json.num 1),
          ("method", Json.str "boom")]), none⟩ =
      .error
        ⟨none, some (Json.obj [("jsonrpc", Json.str "2.0"), ("id", Json.num 1),
          ("method", Json.str "boom")]),
          some [("jsonrpc", Json.str "2.0"), ("id", Json.num 1),
            ("method", Json.str "boom")]⟩
        42 "teapot" (some (Json.str "hot")) :=
  ⟨(handle_request_error_boundary
      ⟨[("boom", ⟨[], fun _ _ => .error (.other "kaboom")⟩)]⟩
      ⟨none, some (Json.obj [("jsonrpc", Json.str "2.0"), ("id", Json.num 1),
        ("method", Json.str "boom")]), none⟩).2.2 (.other "kaboom")
      ⟨none, some (Json.obj [("jsonrpc", Json.str "2.0"), ("id", Json.num 1),
        ("method", Json.str "boom")]),
        some [("jsonrpc", Json.str "2.0"), ("id", Json.num 1),
          ("method", Json.str "boom")]⟩
      rfl (fun _ _ _ hc => PyExc.noConfusion hc),
   (handle_request_error_boundary
      ⟨[("boom", ⟨[], fun _ _ => .error (.rpc 42 "teapot" (some (Json.str "hot")))⟩)]⟩
      ⟨none, some (Json.obj [("jsonrpc", Json.str "2.0"), ("id", Json.num 1),
        ("method", Json.str "boom")]), none⟩).2.1 42 "teapot" (some (Json.str "hot"))
      ⟨none, some (Json.obj [("jsonrpc", Json.str "2.0"), ("id", Json.num 1),
        ("method", Json.str "boom")]),
        some [("jsonrpc", Json.str "2.0"), ("id", Json.num 1),
          ("method", Json.str "boom")]⟩
      rfl⟩

/-- C2: the body of the response `handle_request` produces — success or
error — is the empty string precisely when the request is a valid
notification, and otherwise the JSON encoding of the response's dict
form; in particular computing the body never raises. -/
theorem response_body_notification_rule (svc : Service) (s : Request) :
    ((Request.is_notification s).1 = .ok true →
      Response.body (Service.handle_request svc s) = .ok "") ∧
    ((Request.is_notification s).1 = .ok false →
      ∃ d, (Response.dict (Service.handle_request svc s)).1 = .ok d ∧
        Response.body (Service.handle_request svc s) = .ok (dumps d)) := by
  have hn := Request.is_notification_spec s
  have hn2 := Request.is_notification_spec (Request.dict s).2
  rw [Request.dict_idem s] at hn2
  dsimp only at hn2
  have hid2 := Request.id_spec (Request.dict s).2
  rw [Request.dict_idem s] at hid2
  dsimp only at hid2
  have herr2 : ∀ (c : Int) (m : String) (d0 : Option Json),
      notifFun (Request.dict s).1 = .ok false →
      ∃ j, (Response.dict (Response.error (Request.dict s).2 c m d0)).1 = .ok j ∧
        Response.body (Response.error (Request.dict s).2 c m d0) = .ok (dumps j) := by
    intro c m d0 hfalse
    obtain ⟨j, hj⟩ := errorResponse_dict_pair (Request.dict s).2 c m d0
    rw [hid2] at hj
    dsimp only at hj
    refine ⟨j, ?_, ?_⟩
    · rw [hj]
    · unfold Response.body
      dsimp only [Response.request]
      rw [hn2, hfalse]
      dsimp only [Response.withRequest]
      rw [hj]
  rw [Service.handle_request_spec svc s]
  constructor
  · intro htrue
    rw [hn] at htrue
    dsimp only at htrue
    cases ha : attemptFun svc (Request.dict s).1 with
    | ok r =>
      dsimp only
      unfold Response.body
      dsimp only [Response.request]
      rw [hn2, htrue]
    | error e =>
      cases e <;>
        (dsimp only
         unfold Response.body
         dsimp only [Response.request]
         rw [hn2, htrue])
  · intro hfalse
    rw [hn] at hfalse
    dsimp only at hfalse
    cases ha : attemptFun svc (Request.dict s).1 with
    | ok r =>
      obtain ⟨dd, hdd⟩ := attemptFun_ok_dict svc (Request.dict s).1 r ha
      dsimp only
      have hdict : Response.dict (Response.success (Request.dict s).2 r) =
          (.ok (Json.obj [("jsonrpc", Json.str "2.0"),
            ("id", (lookupField dd "id").getD Json.null), ("result", r)]),
            (Request.dict s).2) := by
        dsimp only [Response.dict]
        rw [hid2, hdd]
        rfl
      refine ⟨Json.obj [("jsonrpc", Json.str "2.0"),
        ("id", (lookupField dd "id").getD Json.null), ("result", r)], ?_, ?_⟩
      · rw [hdict]
      · unfold Response.body
        dsimp only [Response.request]
        rw [hn2, hfalse]
        dsimp only [Response.withRequest]
        rw [hdict]
    | error e =>
      cases e with
      | rpc c m d0 =>
        dsimp only
        exact herr2 c m d0 hfalse
      | valueError m =>
        dsimp only
        exact herr2 (-32603) "Internal error." none hfalse
      | typeError m =>
        dsimp only
        exact herr2 (-32603) "Internal error." none hfalse
      | other m =>
        dsimp only
        exact herr2 (-32603) "Internal error." none hfalse

/-- Witness for C2: a notification (version "2.0", no id) whose method is
not even registered still gets the empty body, while the same request
with an id gets the serialized error dict. -/
theorem response_body_notification_rule_witness :
    Response.body (Service.handle_request ⟨[]⟩
      ⟨none, some (Json.obj [("jsonrpc", Json.str "2.0"),
        ("method", Json.str "ping")]), none⟩) = .ok "" ∧
    ∃ d, (Response.dict (Service.handle_request ⟨[]⟩
        ⟨none, some (Json.obj [("jsonrpc", Json.str "2.0"), ("id", Json.num 7),
          ("method", Json.str "ping")]), none⟩)).1 = .ok d ∧
      Response.body (Service.handle_request ⟨[]⟩
        ⟨none, some (Json.obj [("jsonrpc", Json.str "2.0"), ("id", Json.num 7),
          ("method", Json.str "ping")]), none⟩) = .ok (dumps d) :=
  ⟨(response_body_notification_rule ⟨[]⟩
      ⟨none, some (Json.obj [("jsonrpc", Json.str "2.0"),
        ("method", Json.str "ping")]), none⟩).1 rfl,
   (response_body_notification_rule ⟨[]⟩
      ⟨none, some (Json.obj [("jsonrpc", Json.str "2.0"), ("id", Json.num 7),
        ("method", Json.str "ping")]), none⟩).2 rfl⟩

/-- Witness for C5: re-registering `foo` fails with the `ValueError` and
the original callable stays; registering it for the first time extends
the empty registry by exactly that entry. -/
theorem add_method_duplicate_protection_witness :
    (Service.add_method ⟨[("foo", ⟨[], fun _ _ => .ok Json.null⟩)]⟩ "foo"
        ⟨[], fun _ _ => .ok (Json.num 2)⟩ =
      .error (.valueError "Method \x22foo\x22 already registered.") ∧
      lookupMethod ⟨[("foo", ⟨[], fun _ _ => .ok Json.null⟩)]⟩ "foo" =
        some ⟨[], fun _ _ => .ok Json.null⟩) ∧
    ∃ svc2, Service.add_method ⟨[]⟩ "foo" ⟨[], fun _ _ => .ok Json.null⟩ = .ok svc2 ∧
      lookupMethod svc2 "foo" = some ⟨[], fun _ _ => .ok Json.null⟩ ∧
      ∀ n, n ≠ "foo" → lookupMethod svc2 n = lookupMethod ⟨[]⟩ n :=
  ⟨(add_method_duplicate_protection ⟨[("foo", ⟨[], fun _ _ => .ok Json.null⟩)]⟩ "foo"
      ⟨[], fun _ _ => .ok (Json.num 2)⟩).1 ⟨[], fun _ _ => .ok Json.null⟩ rfl,
   (add_method_duplicate_protection ⟨[]⟩ "foo" ⟨[], fun _ _ => .ok Json.null⟩).2 rfl⟩
